import Mathlib

/-!
Verification of the MetaBridge runtime core against its specification.

The definitions below are a shallow embedding of the Python sources:
`src/metabridge/server.py` (frame loop, endpoint table, dispatch, sharded
LRU instance cache), `src/client.py` (connection pool, request driver) and
`src/registry.py` (service discovery with liveness checks).  Mutation plus
exceptions is rendered as explicit state passing: an operation that can
raise returns the post state together with an optional exception value, so
that the pre state is what "the object is left unchanged" refers to.
External effects (user endpoint code, the OS process probe, the transport)
are parameters of the embedded functions.
-/

/-- Wire values as the server sees them after msgpack decode: nil, booleans,
integers, strings, arrays (decoded to host-language lists) and maps with
string keys (decoded to host-language dicts). -/
inductive Val where
  | nil
  | bool (b : Bool)
  | int (n : Int)
  | str (s : String)
  | list (xs : List Val)
  | map (kvs : List (String × Val))

/-- Whether a decoded value is hashable in the host language.  Arrays and
maps decode to lists and dicts, which are not hashable; scalars are.  This
mirrors what the call to hash on the cache key in
_InstanceMethodFactory.__call__ (server.py line 122) accepts. -/
def Val.hashableB : Val → Bool
  | .list _ => false
  | .map _ => false
  | _ => true

/-- A raised host-language exception: its class name and its message. -/
structure PyExc where
  cls : String
  msg : String
deriving DecidableEq

/-- The three target kinds resolved by ServiceServer._resolve_factory:
plain functions, static or class methods, and instance-bound methods. -/
inductive FactoryKind where
  | free
  | staticLike
  | instanceBound
deriving DecidableEq

/-- An entry of the endpoint table (RegisteredFunction in server.py).  The
user code behind the endpoint is opaque to the runtime, so it is embedded
as a parameter: a function from the call arguments to either a result or a
raised exception. -/
structure RegisteredFunction where
  kind : FactoryKind
  target : List Val → List (String × Val) → Except PyExc Val

/-- RegisteredFunction.invoke (server.py lines 156-168): the factory turns
the constructor arguments into the concrete callable.  For an
instance-bound endpoint, _InstanceMethodFactory.__call__ first builds the
cache key as a tuple of the positional constructor arguments plus the
keyword items sorted by key, and hashes it; a non-hashable value in either
makes hash raise TypeError before any user code runs. -/
def RegisteredFunction.invoke (f : RegisteredFunction)
    (args : List Val) (kwargs : List (String × Val))
    (ctorArgs : List Val) (ctorKwargs : List (String × Val)) :
    Except PyExc Val :=
  match f.kind with
  | .free => f.target args kwargs
  | .staticLike => f.target args kwargs
  | .instanceBound =>
      if ctorArgs.all Val.hashableB && ctorKwargs.all (fun kv => kv.2.hashableB) then
        f.target args kwargs
      else
        .error { cls := "TypeError", msg := "unhashable type" }

/-- The state of a ServiceServer that the claims are about: its endpoint
table (an insertion-ordered map, embedded as an association list), the
frozen flag, and whether the serving loop has been started
(server.py lines 174-197). -/
structure ServiceServer where
  registry : List (String × RegisteredFunction)
  frozen : Bool
  running : Bool

/-- A freshly constructed server: empty table, not frozen, not running. -/
def ServiceServer.new : ServiceServer :=
  { registry := [], frozen := false, running := false }

/-- Lookup in an insertion-ordered association list (dict access). -/
def lookupEndpoint (reg : List (String × RegisteredFunction)) (name : String) :
    Option RegisteredFunction :=
  match reg with
  | [] => none
  | (n, f) :: rest => if n = name then some f else lookupEndpoint rest name

/-- ServiceServer.register (server.py lines 231-246): raise MetaBridgeError
if the table is frozen or the name is already present; otherwise add the
entry.  On an exception the table is unchanged. -/
def ServiceServer.register (s : ServiceServer) (name : String)
    (f : RegisteredFunction) : ServiceServer × Option PyExc :=
  if s.frozen then
    (s, some { cls := "MetaBridgeError",
               msg := "Service is running as a daemon; no new endpoints can be registered" })
  else if (lookupEndpoint s.registry name).isSome then
    (s, some { cls := "MetaBridgeError", msg := "Endpoint is already registered" })
  else
    ({ s with registry := s.registry ++ [(name, f)] }, none)

/-- ServiceServer.start (server.py lines 248-267): brings the serving loop
up.  It sets the running event and never touches the frozen flag. -/
def ServiceServer.start (s : ServiceServer) : ServiceServer :=
  { s with running := true }

/-- ServiceServer.set_frozen (server.py lines 305-307). -/
def ServiceServer.setFrozen (s : ServiceServer) (v : Bool) : ServiceServer :=
  { s with frozen := v }

/-- The request record sent on the wire (see handle_request): the command
type, the endpoint name (already string-converted), the call arguments and
the constructor arguments keying the instance cache. -/
structure Request where
  type : String
  endpoint : String
  args : List Val
  kwargs : List (String × Val)
  ctorArgs : List Val
  ctorKwargs : List (String × Val)

/-- A response record: status ok with a result, or status error with the
error type tag and message. -/
inductive Response where
  | ok (result : Val)
  | err (ty : String) (msg : String)

/-- The endpoint names of the table in lexicographically sorted order,
as produced by sorted(self._registry.keys()). -/
def sortedKeys (reg : List (String × RegisteredFunction)) : List String :=
  List.insertionSort (· ≤ ·) (reg.map Prod.fst)

/-- ServiceServer.handle_request (server.py lines 425-489): list_endpoints
returns the sorted endpoint names; any type other than call is a
ProtocolError; an unknown endpoint is a NotFound; otherwise the endpoint is
invoked and a raised exception is reported with its class name as the
error type. -/
def ServiceServer.handleRequest (s : ServiceServer) (req : Request) : Response :=
  if req.type = "list_endpoints" then
    .ok (.list ((sortedKeys s.registry).map Val.str))
  else if req.type ≠ "call" then
    .err "ProtocolError" "Unknown command"
  else
    match lookupEndpoint s.registry req.endpoint with
    | none => .err "NotFound" "Endpoint not found"
    | some f =>
        match f.invoke req.args req.kwargs req.ctorArgs req.ctorKwargs with
        | .ok v => .ok v
        | .error e => .err e.cls e.msg

/-!
Framing layer (server.py lines 371-423, _handle_client).  The connection
input is a byte stream; one loop iteration reads a 4-byte big-endian length
prefix, then that many payload bytes, decodes the payload (msgpack, here an
opaque decode parameter) and replies with the handled response.  EOF, a
short read, or a decode exception close the connection.
-/

/-- The 64 MiB frame cap mandated by the specification.  The server code
contains no such constant and performs no length check. -/
def FRAME_CAP : Nat := 67108864

/-- Big-endian unsigned 32-bit decode of the 4 length bytes, as done by
struct.unpack with format !I. -/
def unpackU32BE (b : List Nat) : Nat :=
  b.foldl (fun acc x => acc * 256 + x) 0

/-- Outcome of one iteration of the per-connection loop: the connection is
closed, or a response is produced and the rest of the stream remains. -/
inductive FrameStep where
  | closed
  | replied (resp : Response) (rest : List Nat)

/-- One iteration of the read loop in _handle_client (server.py lines
384-413): read 4 bytes (fewer means EOF or a struct error, closing the
connection), decode the length, read exactly that many payload bytes (a
short read closes), decode the request (a decode exception closes), and
otherwise answer with handle_request.  The decoded length is used directly
as the read size; no comparison against any cap occurs. -/
def handleClientStep (decode : List Nat → Option Request) (s : ServiceServer)
    (input : List Nat) : FrameStep :=
  if input.length < 4 then .closed
  else
    let msgLen := unpackU32BE (input.take 4)
    let restAll := input.drop 4
    if restAll.length < msgLen then .closed
    else
      match decode (restAll.take msgLen) with
      | none => .closed
      | some req => .replied (s.handleRequest req) (restAll.drop msgLen)

/-!
Service registry (src/registry.py).
-/

/-- Metadata stored for each registered service (registry.py lines 35-58). -/
structure ServiceRecord where
  name : String
  host : String
  port : Nat
  pid : Int
deriving DecidableEq

/-- The shared registry mapping, embedded as an insertion-ordered
association list (the managed dict of registry.py). -/
abbrev Registry := List (String × ServiceRecord)

/-- Outcome of the os.kill liveness probe on a foreign pid: success,
permission denied, or failure (no such process). -/
inductive KillResult where
  | ok
  | permissionError
  | osError

/-- _is_process_alive (registry.py lines 60-72): a pid that is not positive
is dead; the own pid is alive; otherwise probe with os.kill, counting
permission denied as alive and any other OS error as dead. -/
def isProcessAlive (selfPid : Int) (probe : Int → KillResult) (pid : Int) : Bool :=
  if pid ≤ 0 then false
  else if pid = selfPid then true
  else
    match probe pid with
    | .ok => true
    | .permissionError => true
    | .osError => false

/-- Dict lookup in the registry. -/
def lookupReg (reg : Registry) (name : String) : Option ServiceRecord :=
  match reg with
  | [] => none
  | (n, r) :: rest => if n = name then some r else lookupReg rest name

/-- Dict assignment: replace the value in place when the key exists, else
append a new entry. -/
def updateReg (reg : Registry) (name : String) (r : ServiceRecord) : Registry :=
  match reg with
  | [] => [(name, r)]
  | (n, old) :: rest =>
      if n = name then (n, r) :: rest else (n, old) :: updateReg rest name r

/-- Dict deletion of a key. -/
def removeReg (reg : Registry) (name : String) : Registry :=
  match reg with
  | [] => []
  | (n, old) :: rest =>
      if n = name then rest else (n, old) :: removeReg rest name

/-- register_service (registry.py lines 74-89): when an entry for the name
exists with a different pid that is alive, raise ServiceAlreadyExists and
leave the registry unchanged; otherwise store the record under its name. -/
def registerService (selfPid : Int) (probe : Int → KillResult)
    (reg : Registry) (record : ServiceRecord) : Registry × Option PyExc :=
  match lookupReg reg record.name with
  | some existing =>
      if existing.pid ≠ record.pid && isProcessAlive selfPid probe existing.pid then
        (reg, some { cls := "ServiceAlreadyExists", msg := "Service is already registered" })
      else
        (updateReg reg record.name record, none)
  | none => (updateReg reg record.name record, none)

/-- resolve_service (registry.py lines 107-125): an absent name raises
ServiceNotFound with the registry unchanged; a present record whose owner
is alive is returned with the registry unchanged; a present record whose
owner is dead is deleted and ServiceNotFound is raised. -/
def resolveService (selfPid : Int) (probe : Int → KillResult)
    (reg : Registry) (name : String) : Registry × Except PyExc ServiceRecord :=
  match lookupReg reg name with
  | none => (reg, .error { cls := "ServiceNotFound", msg := "Service was not found" })
  | some record =>
      if isProcessAlive selfPid probe record.pid then
        (reg, .ok record)
      else
        (removeReg reg name,
         .error { cls := "ServiceNotFound", msg := "Service appears to be stale" })

/-!
Client (src/client.py, ServiceClient).  Sockets are embedded as numeric
ids.  The pool is the FIFO queue of idle sockets; the transport behavior of
one request on a given socket (send, receive, decode) is a parameter.
-/

/-- The client state the claims are about: the closed flag, the FIFO pool
of idle sockets (front borrowed first), the pool bound, and a counter
supplying ids for freshly connected sockets. -/
structure ClientState where
  closed : Bool
  pool : List Nat
  maxPool : Nat
  nextSock : Nat

/-- ServiceClient._get_socket (client.py lines 48-61): take the front of
the pool when one is available, otherwise connect a fresh socket. -/
def getSocket (c : ClientState) : Nat × ClientState :=
  match c.pool with
  | [] => (c.nextSock, { c with nextSock := c.nextSock + 1 })
  | s :: rest => (s, { c with pool := rest })

/-- Whether put_nowait on the pool queue would raise Full: the queue has a
positive bound and is at it (queue.Queue treats maxsize 0 as unbounded). -/
def poolFull (c : ClientState) : Bool :=
  c.maxPool != 0 && c.maxPool ≤ c.pool.length

/-- ServiceClient._return_socket (client.py lines 63-71): a closed client
closes the socket; otherwise put it back, and close it when the queue is
full.  Returns the new state and the sockets closed by the call. -/
def returnSocket (c : ClientState) (sock : Nat) : ClientState × List Nat :=
  if c.closed then (c, [sock])
  else if poolFull c then (c, [sock])
  else ({ c with pool := c.pool ++ [sock] }, [])

/-- What the transport does for one request on one socket: either a decoded
response comes back, or some exception is raised on the way (send, receive
or decode). -/
inductive TransportOutcome where
  | success (resp : Response)
  | failure (exc : PyExc)

/-- The except clause of _send_request (client.py lines 116-119): a
RemoteExecutionError propagates as it is; any other exception is wrapped in
a RemoteExecutionError whose message carries the cause. -/
def wrapExc (exc : PyExc) : PyExc :=
  if exc.cls = "RemoteExecutionError" then exc
  else { cls := "RemoteExecutionError", msg := "Request failed: " ++ exc.msg }

/-- Result of one _send_request call: the returned response or raised
exception, the client state afterwards, the sockets closed during the call
and the socket that was borrowed (none when the client was closed). -/
structure SendResult where
  result : Except PyExc Response
  state : ClientState
  closedSocks : List Nat
  usedSock : Option Nat

/-- ServiceClient._send_request with _managed_socket (client.py lines
73-119): a closed client raises RuntimeError before borrowing, which the
except clause wraps in a RemoteExecutionError.  Otherwise a socket is
borrowed; on transport success it is returned to the pool and the response
returned; on a transport failure the socket is closed, never pooled, and
the wrapped exception propagates. -/
def sendRequest (outcome : Nat → TransportOutcome) (c : ClientState) : SendResult :=
  if c.closed then
    { result := .error (wrapExc { cls := "RuntimeError", msg := "ServiceClient is closed." }),
      state := c, closedSocks := [], usedSock := none }
  else
    let borrowed := getSocket c
    match outcome borrowed.1 with
    | .success resp =>
        let ret := returnSocket borrowed.2 borrowed.1
        { result := .ok resp, state := ret.1, closedSocks := ret.2,
          usedSock := some borrowed.1 }
    | .failure exc =>
        { result := .error (wrapExc exc), state := borrowed.2,
          closedSocks := [borrowed.1], usedSock := some borrowed.1 }

/-- ServiceClient.close (client.py lines 155-165): set the closed flag and
drain the pool, closing every pooled socket.  Returns the new state and the
sockets closed by the call. -/
def closeClient (c : ClientState) : ClientState × List Nat :=
  if c.closed then (c, [])
  else ({ c with closed := true, pool := [] }, c.pool)

/-!
Sharded LRU instance cache (_InstanceMethodFactory, server.py lines
86-129).  Each shard is an lru_cache: an access-ordered set of keys with a
capacity.  Only the set of resident keys matters for the capacity claims,
so a shard is embedded as the list of its keys in recency order, least
recently used first.
-/

/-- The number of cache shards (server.py line 92). -/
def NUM_SHARDS : Nat := 16

/-- The capacity handed to each shard lru_cache (server.py line 100):
the integer quotient of the total by the shard count, floored at one. -/
def shardCapacity (maxSize : Nat) : Nat :=
  max 1 (maxSize / NUM_SHARDS)

/-- Remove the first occurrence of a key from a shard. -/
def dropKey [DecidableEq α] : List α → α → List α
  | [], _ => []
  | x :: rest, k => if x = k then rest else x :: dropKey rest k

/-- One lru_cache access on a shard: a hit moves the key to the
most-recently-used end; a miss inserts it there and evicts the least
recently used key when the capacity is exceeded. -/
def lruAccess [DecidableEq α] (cap : Nat) (shard : List α) (k : α) : List α :=
  if k ∈ shard then dropKey shard k ++ [k]
  else
    let grown := shard ++ [k]
    if cap < grown.length then grown.tail else grown

/-- A whole sequence of accesses against one shard, starting empty. -/
def lruRun [DecidableEq α] (cap : Nat) (keys : List α) : List α :=
  keys.foldl (lruAccess cap) []

/-!
Concrete fixtures used to exercise the embedded operations, and helper
lemmas about the association-list maps.
-/

/-- A free-function endpoint fixture. -/
def demoFn : RegisteredFunction :=
  { kind := .free, target := fun _ _ => .ok (.str "pong") }

/-- An instance-bound endpoint fixture. -/
def instFn : RegisteredFunction :=
  { kind := .instanceBound, target := fun _ _ => .ok (.str "Ola mundo!") }

/-- A started server with one free endpoint named soma. -/
def srv1 : ServiceServer :=
  { registry := [("soma", demoFn)], frozen := false, running := true }

/-- A started server with one instance-bound endpoint named get. -/
def instSrv : ServiceServer :=
  { registry := [("get", instFn)], frozen := false, running := true }

/-- A list_endpoints request. -/
def reqList : Request :=
  { type := "list_endpoints", endpoint := "", args := [], kwargs := [],
    ctorArgs := [], ctorKwargs := [] }

/-- A call request for an endpoint that is not registered on srv1. -/
def reqMissing : Request :=
  { type := "call", endpoint := "nope", args := [], kwargs := [],
    ctorArgs := [], ctorKwargs := [] }

/-- A request with an unknown command type. -/
def reqBad : Request :=
  { type := "frobnicate", endpoint := "", args := [], kwargs := [],
    ctorArgs := [], ctorKwargs := [] }

/-- A call request whose constructor arguments contain a non-hashable
value (a decoded array). -/
def badCtorReq : Request :=
  { type := "call", endpoint := "get", args := [], kwargs := [],
    ctorArgs := [Val.list []], ctorKwargs := [] }

/-- A live client fixture with one pooled socket. -/
def poolClient : ClientState :=
  { closed := false, pool := [7], maxPool := 16, nextSock := 0 }

/-- A transport that always succeeds with a pong response. -/
def outcomeOk : Nat → TransportOutcome :=
  fun _ => .success (.ok (.str "pong"))

/-- The exception of a failing transport fixture. -/
def failExc : PyExc := { cls := "OSError", msg := "connection reset" }

/-- A transport that always fails with an OS error. -/
def outcomeFail : Nat → TransportOutcome :=
  fun _ => .failure failExc

/-- The header bytes of an oversize frame: big-endian 67108865, one byte
above the 64 MiB cap. -/
def oversizeHeader : List Nat := [4, 0, 0, 1]

/-- A payload of 67108865 bytes. -/
def oversizePayload : List Nat := List.replicate 67108865 0

/-- A decoder fixture that accepts any payload as a list_endpoints
request. -/
def constDecode : List Nat → Option Request := fun _ => some reqList

/-- A service record fixture owned by pid 200. -/
def rec0 : ServiceRecord :=
  { name := "svc", host := "127.0.0.1", port := 9000, pid := 200 }

/-- A record for the same service name under another pid. -/
def rec1 : ServiceRecord :=
  { name := "svc", host := "127.0.0.1", port := 9001, pid := 300 }

/-- A registry holding rec0 under its name. -/
def reg0 : Registry := [("svc", rec0)]

/-- A probe under which every foreign pid is alive. -/
def probeAlive : Int → KillResult := fun _ => .ok

/-- A probe under which every foreign pid is dead. -/
def probeDead : Int → KillResult := fun _ => .osError

/-- A lookup that misses returns none exactly when the name is not among
the stored keys. -/
theorem lookupEndpoint_none_iff (reg : List (String × RegisteredFunction)) (name : String) :
    lookupEndpoint reg name = none ↔ ¬ name ∈ reg.map Prod.fst := by
  induction reg with
  | nil => simp [lookupEndpoint]
  | cons p rest ih =>
      obtain ⟨n, f⟩ := p
      by_cases hn : n = name
      · subst hn
        simp [lookupEndpoint]
      · simp [lookupEndpoint, hn, ih]
        intro h
        exact fun hh => hn hh.symm

/-- Same statement for the service registry map. -/
theorem lookupReg_none_iff (reg : Registry) (name : String) :
    lookupReg reg name = none ↔ ¬ name ∈ reg.map Prod.fst := by
  induction reg with
  | nil => simp [lookupReg]
  | cons p rest ih =>
      obtain ⟨n, r⟩ := p
      by_cases hn : n = name
      · subst hn
        simp [lookupReg]
      · simp [lookupReg, hn, ih]
        intro h
        exact fun hh => hn hh.symm

/-- Updating a key makes subsequent lookups of that key find the new
value. -/
theorem lookupReg_updateReg (reg : Registry) (name : String) (r : ServiceRecord) :
    lookupReg (updateReg reg name r) name = some r := by
  induction reg with
  | nil => simp [updateReg, lookupReg]
  | cons p rest ih =>
      obtain ⟨n, old⟩ := p
      by_cases hn : n = name
      · simp [updateReg, hn, lookupReg]
      · simp [updateReg, hn, lookupReg, ih]

/-- When the stored keys are distinct, deleting a key removes it for
subsequent lookups. -/
theorem lookupReg_removeReg (reg : Registry) (name : String)
    (h : (reg.map Prod.fst).Nodup) : lookupReg (removeReg reg name) name = none := by
  induction reg with
  | nil => simp [removeReg, lookupReg]
  | cons p rest ih =>
      obtain ⟨n, r⟩ := p
      simp only [List.map_cons, List.nodup_cons] at h
      by_cases hn : n = name
      · subst hn
        simp only [removeReg, if_pos rfl]
        exact (lookupReg_none_iff rest n).mpr h.1
      · simp only [removeReg, if_neg hn, lookupReg, if_neg hn]
        exact ih h.2

/-- C5 counterexample: starting a server does not freeze its endpoint
table.  A freshly constructed server that has been started still accepts a
registration, which succeeds and changes the table, while its running flag
is set.  This is how ServiceBuilder works: create_service starts the server
first and the user registers endpoints afterwards. -/
theorem register_after_start_succeeds :
    (ServiceServer.new.start.register "soma" demoFn).2 = none
    ∧ (ServiceServer.new.start.register "soma" demoFn).1.registry = [("soma", demoFn)]
    ∧ ServiceServer.new.start.running = true :=
  ⟨rfl, rfl, rfl⟩

/-- C5 amended: registration is refused, with the table left unchanged,
exactly when the server has been explicitly frozen via set_frozen (which
only the daemon supervisor does); start alone does not set the frozen flag,
and registering an unused name on a started unfrozen server succeeds. -/
theorem freeze_gates_register (s : ServiceServer) (name : String)
    (f : RegisteredFunction) (hf : s.frozen = false)
    (hn : lookupEndpoint s.registry name = none) :
    ((s.setFrozen true).register name f).1 = s.setFrozen true
    ∧ ((s.setFrozen true).register name f).2
        = some { cls := "MetaBridgeError",
                 msg := "Service is running as a daemon; no new endpoints can be registered" }
    ∧ s.start.frozen = false
    ∧ (s.start.register name f).2 = none
    ∧ (s.start.register name f).1.registry = s.registry ++ [(name, f)] := by
  refine ⟨?_, ?_, ?_, ?_, ?_⟩ <;>
    simp [ServiceServer.register, ServiceServer.setFrozen, ServiceServer.start, hf, hn]

/-- Witness for the C5 amended theorem at a concrete server. -/
theorem freeze_gates_register_witness :
    ((ServiceServer.new.setFrozen true).register "soma" demoFn).1
        = ServiceServer.new.setFrozen true
    ∧ ((ServiceServer.new.setFrozen true).register "soma" demoFn).2
        = some { cls := "MetaBridgeError",
                 msg := "Service is running as a daemon; no new endpoints can be registered" }
    ∧ ServiceServer.new.start.frozen = false
    ∧ (ServiceServer.new.start.register "soma" demoFn).2 = none
    ∧ (ServiceServer.new.start.register "soma" demoFn).1.registry
        = ServiceServer.new.registry ++ [("soma", demoFn)] :=
  freeze_gates_register ServiceServer.new "soma" demoFn rfl rfl

/-- C10: registering a name that is already present in the endpoint table
raises MetaBridgeError and leaves the server unchanged; and any
registration preserves key uniqueness of the table, so each name maps to at
most one registered function. -/
theorem duplicate_endpoint_rejected (s : ServiceServer) (name : String)
    (f : RegisteredFunction)
    (hdup : (lookupEndpoint s.registry name).isSome = true) :
    (s.register name f).1 = s
    ∧ (s.register name f).2.map PyExc.cls = some "MetaBridgeError"
    ∧ (∀ t : ServiceServer, (t.registry.map Prod.fst).Nodup →
        ((t.register name f).1.registry.map Prod.fst).Nodup) := by
  refine ⟨?_, ?_, ?_⟩
  · by_cases hfr : s.frozen <;> simp [ServiceServer.register, hfr, hdup]
  · by_cases hfr : s.frozen <;> simp [ServiceServer.register, hfr, hdup]
  · intro t ht
    by_cases hfr : t.frozen
    · simpa [ServiceServer.register, hfr] using ht
    · by_cases hdt : (lookupEndpoint t.registry name).isSome = true
      · simpa [ServiceServer.register, hfr, hdt] using ht
      · have hnone : lookupEndpoint t.registry name = none := by
          cases hl : lookupEndpoint t.registry name with
          | none => rfl
          | some g => rw [hl] at hdt; simp at hdt
        have hmem : ¬ name ∈ t.registry.map Prod.fst :=
          (lookupEndpoint_none_iff t.registry name).mp hnone
        simp [ServiceServer.register, hfr, hdt, List.nodup_append, ht, hmem]

/-- Witness for C10 at a concrete server holding the name soma. -/
theorem duplicate_endpoint_rejected_witness :
    (srv1.register "soma" demoFn).1 = srv1
    ∧ (srv1.register "soma" demoFn).2.map PyExc.cls = some "MetaBridgeError"
    ∧ ((srv1.register "soma" demoFn).1.registry.map Prod.fst).Nodup := by
  have h := duplicate_endpoint_rejected srv1 "soma" demoFn rfl
  exact ⟨h.1, h.2.1, h.2.2 srv1 (by simp [srv1])⟩

/-- Removing a present key shrinks a shard by exactly one entry. -/
theorem dropKey_length (α : Type) [DecidableEq α] :
    ∀ (l : List α) (k : α), k ∈ l → (dropKey l k).length + 1 = l.length := by
  intro l k
  induction l with
  | nil => intro h; simp at h
  | cons x rest ih =>
      intro h
      by_cases hx : x = k
      · simp [dropKey, hx]
      · have hk : k ∈ rest := by
          cases h with
          | head => exact absurd rfl hx
          | tail _ h2 => exact h2
        simp [dropKey, hx, ih hk]

/-- One cache access keeps a shard within its capacity. -/
theorem lruAccess_length_le (α : Type) [DecidableEq α] (cap : Nat)
    (shard : List α) (k : α) (h : shard.length ≤ cap) :
    (lruAccess cap shard k).length ≤ cap := by
  by_cases hk : k ∈ shard
  · have := dropKey_length α shard k hk
    simp only [lruAccess, if_pos hk, List.length_append, List.length_cons,
      List.length_nil]
    omega
  · simp only [lruAccess, if_neg hk]
    by_cases hlen : cap < (shard ++ [k]).length
    · simp only [if_pos hlen]
      have : (shard ++ [k]).length = shard.length + 1 := by simp
      have htail : (shard ++ [k]).tail.length = (shard ++ [k]).length - 1 :=
        List.length_tail _
      omega
    · simp only [if_neg hlen]
      omega

/-- Any access sequence keeps a shard within its capacity. -/
theorem lruRun_length_le (α : Type) [DecidableEq α] (cap : Nat) (keys : List α) :
    (lruRun cap keys).length ≤ cap := by
  suffices h : ∀ (init : List α), init.length ≤ cap →
      (keys.foldl (lruAccess cap) init).length ≤ cap by
    exact h [] (by simp)
  induction keys with
  | nil => intro init h; simpa using h
  | cons k rest ih =>
      intro init h
      exact ih (lruAccess cap init k) (lruAccess_length_le α cap init k h)

/-- C4 counterexample: the per-shard capacity in the code is the floored
quotient max(1, total // 16), not the ceiling of total / 16; at a total
capacity of 17 the code gives 1 while the ceiling is 2. -/
theorem shard_capacity_not_ceil :
    shardCapacity 17 = 1
    ∧ (17 + NUM_SHARDS - 1) / NUM_SHARDS = 2
    ∧ shardCapacity 17 ≠ (17 + NUM_SHARDS - 1) / NUM_SHARDS := by
  decide

/-- C4 amended: the instance cache gives each of its 16 shards a capacity
of max(1, total_capacity / 16) entries, floor division; with the default
total of 128 each shard capacity is 8, and no access sequence makes a
shard hold more than 8 keys. -/
theorem shard_capacity_floor_bound (α : Type) [DecidableEq α] :
    NUM_SHARDS = 16
    ∧ (∀ total, shardCapacity total = max 1 (total / 16))
    ∧ shardCapacity 128 = 8
    ∧ (∀ keys : List α, (lruRun (shardCapacity 128) keys).length ≤ 8) := by
  refine ⟨rfl, fun total => rfl, rfl, fun keys => ?_⟩
  have := lruRun_length_le α (shardCapacity 128) keys
  simpa using this

/-- C2 counterexample: a call whose constructor arguments contain a
non-hashable value is answered with error type TypeError, the
host-language class name, not the symbolic tag ArgError. -/
theorem nonhashable_ctor_not_argerror :
    instSrv.handleRequest badCtorReq = .err "TypeError" "unhashable type"
    ∧ "TypeError" ≠ "ArgError" :=
  ⟨rfl, by decide⟩

/-- C2 amended: for every call request on an instance-bound endpoint whose
constructor arguments or keyword values contain a non-hashable value,
handle_request returns status error with error type TypeError, the class
name of the exception raised while hashing the cache key, rather than the
symbolic tag ArgError. -/
theorem nonhashable_ctor_yields_typeerror (s : ServiceServer) (req : Request)
    (f : RegisteredFunction)
    (ht : req.type = "call")
    (hl : lookupEndpoint s.registry req.endpoint = some f)
    (hk : f.kind = .instanceBound)
    (hbad : (req.ctorArgs.all Val.hashableB
        && req.ctorKwargs.all (fun kv => kv.2.hashableB)) = false) :
    s.handleRequest req = .err "TypeError" "unhashable type"
    ∧ "TypeError" ≠ "ArgError" := by
  refine ⟨?_, by decide⟩
  have hne : req.type ≠ "list_endpoints" := by rw [ht]; decide
  simp [ServiceServer.handleRequest, hne, ht, hl, RegisteredFunction.invoke, hk, hbad]

/-- Witness for the C2 amended theorem at a concrete server and request. -/
theorem nonhashable_ctor_yields_typeerror_witness :
    instSrv.handleRequest badCtorReq = .err "TypeError" "unhashable type"
    ∧ "TypeError" ≠ "ArgError" :=
  nonhashable_ctor_yields_typeerror instSrv badCtorReq instFn rfl rfl rfl rfl

/-- C3 counterexample: a request on a closed client fails with a
RemoteExecutionError wrapping the internal RuntimeError, not with any
ClientClosed error; no such error class exists in the code base. -/
theorem closed_client_not_clientclosed :
    (sendRequest outcomeOk (closeClient poolClient).1).result
      = .error { cls := "RemoteExecutionError",
                 msg := "Request failed: ServiceClient is closed." }
    ∧ "RemoteExecutionError" ≠ "ClientClosed" :=
  ⟨rfl, by decide⟩

/-- C3 amended: close drains and closes all pooled sockets, leaving the
pool empty; afterwards every invocation fails, with a RemoteExecutionError
whose message wraps the RuntimeError message about the closed client
(rather than a ClientClosed error), before any socket is borrowed. -/
theorem close_drains_and_blocks (c : ClientState) (outcome : Nat → TransportOutcome)
    (h : c.closed = false) :
    (closeClient c).1.closed = true
    ∧ (closeClient c).1.pool = []
    ∧ (closeClient c).2 = c.pool
    ∧ (sendRequest outcome (closeClient c).1).result
        = .error { cls := "RemoteExecutionError",
                   msg := "Request failed: ServiceClient is closed." }
    ∧ (sendRequest outcome (closeClient c).1).state = (closeClient c).1
    ∧ (sendRequest outcome (closeClient c).1).usedSock = none := by
  refine ⟨?_, ?_, ?_, ?_, ?_, ?_⟩ <;>
    simp [closeClient, sendRequest, wrapExc, h]

/-- Witness for the C3 amended theorem at a concrete client. -/
theorem close_drains_and_blocks_witness :
    (closeClient poolClient).1.closed = true
    ∧ (closeClient poolClient).1.pool = []
    ∧ (closeClient poolClient).2 = poolClient.pool
    ∧ (sendRequest outcomeOk (closeClient poolClient).1).result
        = .error { cls := "RemoteExecutionError",
                   msg := "Request failed: ServiceClient is closed." }
    ∧ (sendRequest outcomeOk (closeClient poolClient).1).state
        = (closeClient poolClient).1
    ∧ (sendRequest outcomeOk (closeClient poolClient).1).usedSock = none :=
  close_drains_and_blocks poolClient outcomeOk rfl

/-- Borrowing a socket never flips the closed flag. -/
theorem getSocket_closed (c : ClientState) : (getSocket c).2.closed = c.closed := by
  cases hp : c.pool <;> simp [getSocket, hp]

/-- C9: on a live client, a request whose transport succeeds returns the
response and gives the borrowed socket back to the pool, unless the pool
is full, in which case the socket is closed; a request whose transport
fails closes the borrowed socket, does not pool it, and propagates a
RemoteExecutionError whose message carries the underlying cause. -/
theorem socket_pool_discipline (c : ClientState) (outcome : Nat → TransportOutcome)
    (hcl : c.closed = false) :
    (∀ resp, outcome (getSocket c).1 = .success resp →
        (sendRequest outcome c).result = .ok resp
        ∧ (poolFull (getSocket c).2 = false →
            (sendRequest outcome c).state.pool
              = (getSocket c).2.pool ++ [(getSocket c).1]
            ∧ (sendRequest outcome c).closedSocks = [])
        ∧ (poolFull (getSocket c).2 = true →
            (sendRequest outcome c).state = (getSocket c).2
            ∧ (sendRequest outcome c).closedSocks = [(getSocket c).1]))
    ∧ (∀ exc, outcome (getSocket c).1 = .failure exc →
        (sendRequest outcome c).result = .error (wrapExc exc)
        ∧ (wrapExc exc).cls = "RemoteExecutionError"
        ∧ ((wrapExc exc).msg = exc.msg
            ∨ (wrapExc exc).msg = "Request failed: " ++ exc.msg)
        ∧ (sendRequest outcome c).state = (getSocket c).2
        ∧ (sendRequest outcome c).closedSocks = [(getSocket c).1]) := by
  have hgc : (getSocket c).2.closed = false := by rw [getSocket_closed]; exact hcl
  constructor
  · intro resp hsucc
    refine ⟨?_, ?_, ?_⟩
    · simp [sendRequest, hcl, hsucc]
    · intro hfull
      constructor <;> simp [sendRequest, hcl, hsucc, returnSocket, hgc, hfull]
    · intro hfull
      constructor <;> simp [sendRequest, hcl, hsucc, returnSocket, hgc, hfull]
  · intro exc hfail
    refine ⟨?_, ?_, ?_, ?_, ?_⟩
    · simp [sendRequest, hcl, hfail]
    · by_cases hree : exc.cls = "RemoteExecutionError" <;> simp [wrapExc, hree]
    · by_cases hree : exc.cls = "RemoteExecutionError" <;> simp [wrapExc, hree]
    · simp [sendRequest, hcl, hfail]
    · simp [sendRequest, hcl, hfail]

/-- Witness for C9 at a concrete client with a succeeding and with a
failing transport. -/
theorem socket_pool_discipline_witness :
    (sendRequest outcomeOk poolClient).result = .ok (.ok (.str "pong"))
    ∧ (sendRequest outcomeOk poolClient).state.pool
        = (getSocket poolClient).2.pool ++ [(getSocket poolClient).1]
    ∧ (sendRequest outcomeOk poolClient).closedSocks = []
    ∧ (sendRequest outcomeFail poolClient).result = .error (wrapExc failExc)
    ∧ (sendRequest outcomeFail poolClient).closedSocks = [(getSocket poolClient).1] := by
  have hs := (socket_pool_discipline poolClient outcomeOk rfl).1 (.ok (.str "pong")) rfl
  have hf := (socket_pool_discipline poolClient outcomeFail rfl).2 failExc rfl
  exact ⟨hs.1, (hs.2.1 rfl).1, (hs.2.1 rfl).2, hf.1, hf.2.2.2.2⟩

/-- C1: a frame whose decoded length prefix exceeds the 64 MiB cap is
read and processed like any other frame: the per-connection loop performs
no comparison of the decoded length against any cap, so the request is
decoded, handled, and answered instead of the connection being closed. -/
theorem oversize_frame_still_processed (decode : List Nat → Option Request)
    (s : ServiceServer) (hdr payload : List Nat) (req : Request)
    (h4 : hdr.length = 4)
    (_hcap : FRAME_CAP < unpackU32BE hdr)
    (hlen : payload.length = unpackU32BE hdr)
    (hdec : decode payload = some req) :
    handleClientStep decode s (hdr ++ payload)
      = .replied (s.handleRequest req) [] := by
  have h1 : ¬ (hdr ++ payload).length < 4 := by
    rw [List.length_append, h4]; omega
  have h2 : ¬ payload.length < unpackU32BE ((hdr ++ payload).take 4) := by
    rw [List.take_left' h4, hlen]
    exact lt_irrefl _
  rw [handleClientStep, if_neg h1]
  simp only [List.take_left' h4, List.drop_left' h4]
  rw [if_neg (by rw [List.take_left' h4] at h2; exact h2)]
  have htake : payload.take (unpackU32BE hdr) = payload := by
    rw [← hlen]; exact List.take_length payload
  have hdrop : payload.drop (unpackU32BE hdr) = [] := by
    rw [← hlen]; exact List.drop_length payload
  rw [htake, hdec, hdrop]

/-- Witness for C1: the concrete oversize frame is answered, not dropped,
by the connection loop. -/
theorem oversize_frame_still_processed_witness :
    handleClientStep constDecode srv1 (oversizeHeader ++ oversizePayload)
      = .replied (srv1.handleRequest reqList) []
    ∧ FRAME_CAP < unpackU32BE oversizeHeader :=
  ⟨oversize_frame_still_processed constDecode srv1 oversizeHeader oversizePayload
      reqList rfl (by decide)
      (by show (List.replicate 67108865 0).length = unpackU32BE oversizeHeader
          rw [List.length_replicate]
          rfl)
      rfl,
   by decide⟩

/-- C8: handle_request dispatches by command type.  A list_endpoints
request is answered ok with exactly the registered endpoint names in
lexicographically sorted order; a call request naming an unregistered
endpoint is answered with error type NotFound; a request whose type is
neither list_endpoints nor call is answered with error type
ProtocolError. -/
theorem handle_request_dispatch (s : ServiceServer) (req : Request) :
    (req.type = "list_endpoints" →
        s.handleRequest req = .ok (.list ((sortedKeys s.registry).map Val.str))
        ∧ List.Sorted (· ≤ ·) (sortedKeys s.registry)
        ∧ (sortedKeys s.registry).Perm (s.registry.map Prod.fst))
    ∧ (req.type = "call" → lookupEndpoint s.registry req.endpoint = none →
        s.handleRequest req = .err "NotFound" "Endpoint not found")
    ∧ (req.type ≠ "list_endpoints" → req.type ≠ "call" →
        s.handleRequest req = .err "ProtocolError" "Unknown command") := by
  refine ⟨fun h => ⟨?_, ?_, ?_⟩, fun h hn => ?_, fun h1 h2 => ?_⟩
  · simp [ServiceServer.handleRequest, h]
  · exact List.sorted_insertionSort _ _
  · exact List.perm_insertionSort _ _
  · have hne : req.type ≠ "list_endpoints" := by rw [h]; decide
    simp [ServiceServer.handleRequest, hne, h, hn]
  · simp [ServiceServer.handleRequest, h1, h2]

/-- Witness for C8 at a concrete server and the three request shapes. -/
theorem handle_request_dispatch_witness :
    srv1.handleRequest reqList = .ok (.list ((sortedKeys srv1.registry).map Val.str))
    ∧ List.Sorted (· ≤ ·) (sortedKeys srv1.registry)
    ∧ (sortedKeys srv1.registry).Perm (srv1.registry.map Prod.fst)
    ∧ srv1.handleRequest reqMissing = .err "NotFound" "Endpoint not found"
    ∧ srv1.handleRequest reqBad = .err "ProtocolError" "Unknown command" := by
  have h1 := (handle_request_dispatch srv1 reqList).1 rfl
  have h2 := (handle_request_dispatch srv1 reqMissing).2.1 rfl rfl
  have h3 := (handle_request_dispatch srv1 reqBad).2.2 (by decide) (by decide)
  exact ⟨h1.1, h1.2.1, h1.2.2, h2, h3⟩

/-- C6: register_service fails with ServiceAlreadyExists exactly when the
registry holds an entry under the record name whose pid differs from the
record pid and is a live process; in that case the registry is unchanged,
and in every other case the entry is overwritten with the record. -/
theorem register_service_conflict_iff (selfPid : Int) (probe : Int → KillResult)
    (reg : Registry) (record : ServiceRecord) :
    ((registerService selfPid probe reg record).2.isSome = true ↔
        ∃ old, lookupReg reg record.name = some old
          ∧ old.pid ≠ record.pid
          ∧ isProcessAlive selfPid probe old.pid = true)
    ∧ ((registerService selfPid probe reg record).2.isSome = true →
        (registerService selfPid probe reg record).1 = reg
        ∧ (registerService selfPid probe reg record).2
            = some { cls := "ServiceAlreadyExists",
                     msg := "Service is already registered" })
    ∧ ((registerService selfPid probe reg record).2 = none →
        (registerService selfPid probe reg record).1
            = updateReg reg record.name record
        ∧ lookupReg (registerService selfPid probe reg record).1 record.name
            = some record) := by
  cases hl : lookupReg reg record.name with
  | none =>
      refine ⟨?_, ?_, ?_⟩
      · simp [registerService, hl]
      · simp [registerService, hl]
      · intro _
        simp [registerService, hl, lookupReg_updateReg]
  | some old =>
      have hreg : registerService selfPid probe reg record
          = if old.pid ≠ record.pid ∧ isProcessAlive selfPid probe old.pid = true
            then (reg, some { cls := "ServiceAlreadyExists",
                              msg := "Service is already registered" })
            else (updateReg reg record.name record, none) := by
        rw [registerService, hl]
        simp only [Bool.and_eq_true, decide_eq_true_eq]
      by_cases hc : old.pid ≠ record.pid ∧ isProcessAlive selfPid probe old.pid = true
      · rw [hreg, if_pos hc]
        refine ⟨⟨fun _ => ⟨old, rfl, hc.1, hc.2⟩, fun _ => rfl⟩,
          fun _ => ⟨rfl, rfl⟩, fun h => ?_⟩
        simp at h
      · rw [hreg, if_neg hc]
        refine ⟨⟨fun h => ?_, fun h => ?_⟩, fun h => ?_, fun _ => ?_⟩
        · simp at h
        · obtain ⟨o, ho, hne, hal⟩ := h
          cases ho
          exact absurd ⟨hne, hal⟩ hc
        · simp at h
        · exact ⟨rfl, lookupReg_updateReg reg record.name record⟩

/-- Witness for C6: publishing over a live foreign owner fails and leaves
the registry unchanged; publishing over a dead owner overwrites. -/
theorem register_service_conflict_iff_witness :
    (registerService 100 probeAlive reg0 rec1).2
        = some { cls := "ServiceAlreadyExists",
                 msg := "Service is already registered" }
    ∧ (registerService 100 probeAlive reg0 rec1).1 = reg0
    ∧ (registerService 100 probeDead reg0 rec1).1 = updateReg reg0 "svc" rec1
    ∧ lookupReg (registerService 100 probeDead reg0 rec1).1 "svc" = some rec1 := by
  have hLive := register_service_conflict_iff 100 probeAlive reg0 rec1
  have hDead := register_service_conflict_iff 100 probeDead reg0 rec1
  have hs : (registerService 100 probeAlive reg0 rec1).2.isSome = true :=
    hLive.1.mpr ⟨rec0, rfl, by decide, rfl⟩
  exact ⟨(hLive.2.1 hs).2, (hLive.2.1 hs).1,
    (hDead.2.2 rfl).1, (hDead.2.2 rfl).2⟩

/-- C7: resolve_service returns the stored record when its owner pid is
alive, leaving the registry unchanged; evicts the entry and fails with
ServiceNotFound when the owner is dead (with the name absent from the
registry afterwards, given distinct keys); and fails with ServiceNotFound,
registry unchanged, when no entry exists. -/
theorem resolve_service_cases (selfPid : Int) (probe : Int → KillResult)
    (reg : Registry) (name : String) :
    (lookupReg reg name = none →
        resolveService selfPid probe reg name
          = (reg, .error { cls := "ServiceNotFound",
                           msg := "Service was not found" }))
    ∧ (∀ r, lookupReg reg name = some r →
        isProcessAlive selfPid probe r.pid = true →
        resolveService selfPid probe reg name = (reg, .ok r))
    ∧ (∀ r, lookupReg reg name = some r →
        isProcessAlive selfPid probe r.pid = false →
        resolveService selfPid probe reg name
          = (removeReg reg name,
             .error { cls := "ServiceNotFound",
                      msg := "Service appears to be stale" })
        ∧ ((reg.map Prod.fst).Nodup →
            lookupReg (removeReg reg name) name = none)) := by
  refine ⟨fun h => ?_, fun r hr hal => ?_, fun r hr hal => ⟨?_, fun hnd => ?_⟩⟩
  · simp [resolveService, h]
  · simp [resolveService, hr, hal]
  · simp [resolveService, hr, hal]
  · exact lookupReg_removeReg reg name hnd

/-- Witness for C7 at a concrete registry: a missing name, a live owner
and a dead owner. -/
theorem resolve_service_cases_witness :
    resolveService 100 probeAlive reg0 "ghost"
      = (reg0, .error { cls := "ServiceNotFound", msg := "Service was not found" })
    ∧ resolveService 100 probeAlive reg0 "svc" = (reg0, .ok rec0)
    ∧ resolveService 100 probeDead reg0 "svc"
        = (removeReg reg0 "svc",
           .error { cls := "ServiceNotFound", msg := "Service appears to be stale" })
    ∧ lookupReg (removeReg reg0 "svc") "svc" = none := by
  have h1 := (resolve_service_cases 100 probeAlive reg0 "ghost").1 rfl
  have h2 := (resolve_service_cases 100 probeAlive reg0 "svc").2.1 rec0 rfl rfl
  have h3 := (resolve_service_cases 100 probeDead reg0 "svc").2.2 rec0 rfl rfl
  exact ⟨h1, h2, h3.1, h3.2 (by simp [reg0])⟩
